import Mathlib

/-!
Verification of the `stems.gis` conversion and CF-convention code
(`src/stems/gis/convert.py` and `src/stems/gis/conventions.py`).

The Python code is shallowly embedded: xarray datasets, data arrays and
attribute dictionaries become explicit structures over association lists;
numpy/python numeric values become an `AttrValue` inductive; fallible code
returns `Except PyErr`.  External collaborators that are not part of the
two source files (the `stems.gis.projections` module, the `rasterio` CRS
parsers, the `affine` library) are embedded as parameter records whose
interfaces follow the design document, so every theorem quantifies over
all possible collaborator behaviours.
-/

/-- A value stored in an xarray attribute dictionary or as array data.
The constructors distinguish the Python runtime types that the source
code branches on: native `str`/`int`, native `list`/`tuple` (of numbers),
and numpy arrays (`ndarray` for 1-d arrays, `ndscalar` for 0-d arrays as
produced by `np.array(int(...), dtype=np.int32)`). -/
inductive AttrValue where
  | str (s : String)
  | int (n : Int)
  | float (q : ℚ)
  | list (xs : List ℚ)
  | tuple (xs : List ℚ)
  | ndarray (xs : List ℚ)
  | ndscalar (n : Int)
deriving DecidableEq, Repr

/-- Python exceptions raised by the embedded code. -/
inductive PyErr where
  | typeError (msg : String)
  | valueError
  | nameError (n : String)
  | assertionError
  | crsError (msg : String)
  | keyError (msg : String)
deriving DecidableEq, Repr

/-! ### Association lists with Python `dict` semantics

Python dictionaries preserve insertion order; `d[k] = v` replaces the
value of an existing key in place and appends a new key at the end.
`alistGet`/`alistSet`/`alistUpdate` mirror `d[k]`, `d[k] = v` and
`d.update(other)`. -/

def alistGet {β : Type} : List (String × β) → String → Option β
  | [], _ => none
  | (k, v) :: rest, key => if k = key then some v else alistGet rest key

def alistSet {β : Type} : List (String × β) → String → β → List (String × β)
  | [], key, val => [(key, val)]
  | (k, v) :: rest, key, val =>
      if k = key then (key, val) :: rest else (k, v) :: alistSet rest key val

def alistHas {β : Type} (l : List (String × β)) (key : String) : Bool :=
  (alistGet l key).isSome

def alistUpdate {β : Type} (l new : List (String × β)) : List (String × β) :=
  new.foldl (fun acc p => alistSet acc p.1 p.2) l

def mapVals {β : Type} (f : β → β) (l : List (String × β)) : List (String × β) :=
  l.map (fun p => (p.1, f p.2))

theorem alistGet_set_self {β : Type} (l : List (String × β)) (k : String) (v : β) :
    alistGet (alistSet l k v) k = some v := by
  induction l with
  | nil => simp [alistGet, alistSet]
  | cons p rest ih =>
      obtain ⟨k0, v0⟩ := p
      by_cases h : k0 = k
      · simp [alistSet, alistGet, h]
      · simp [alistSet, alistGet, h, ih]

theorem alistGet_set_ne {β : Type} (l : List (String × β)) (k k' : String) (v : β)
    (h : k ≠ k') : alistGet (alistSet l k v) k' = alistGet l k' := by
  induction l with
  | nil => simp [alistGet, alistSet, h]
  | cons p rest ih =>
      obtain ⟨k0, v0⟩ := p
      by_cases h0 : k0 = k
      · subst h0
        simp [alistSet, alistGet, h]
      · by_cases h1 : k0 = k'
        · simp [alistSet, alistGet, h0, h1, Ne.symm h]
        · simp [alistSet, alistGet, h0, h1, ih]

theorem alistGet_mapVals {β : Type} (f : β → β) (l : List (String × β)) (k : String) :
    alistGet (mapVals f l) k = (alistGet l k).map f := by
  induction l with
  | nil => simp [alistGet, mapVals]
  | cons p rest ih =>
      obtain ⟨k0, v0⟩ := p
      by_cases h : k0 = k
      · simp [mapVals, alistGet, h]
      · simp [mapVals, alistGet, h] at ih ⊢
        exact ih

theorem alistHas_mapVals {β : Type} (f : β → β) (l : List (String × β)) (k : String) :
    alistHas (mapVals f l) k = alistHas l k := by
  unfold alistHas
  rw [alistGet_mapVals]
  cases alistGet l k <;> rfl

theorem alistHas_set {β : Type} (l : List (String × β)) (k k' : String) (v : β) :
    alistHas (alistSet l k v) k' = (alistHas l k' || decide (k = k')) := by
  by_cases h : k = k'
  · subst h
    simp [alistHas, alistGet_set_self]
  · simp [alistHas, alistGet_set_ne l k k' v h, h]

theorem alistHas_update_of_has {β : Type} (l new : List (String × β)) (k : String)
    (h : alistHas l k = true) : alistHas (alistUpdate l new) k = true := by
  induction new generalizing l with
  | nil => simpa [alistUpdate] using h
  | cons p rest ih =>
      show alistHas (alistUpdate (alistSet l p.1 p.2) rest) k = true
      exact ih _ (by rw [alistHas_set, h, Bool.true_or])

theorem alistGet_set_self_has {β : Type} (l : List (String × β)) (k : String) (v : β) :
    alistHas (alistSet l k v) k = true := by
  simp [alistHas, alistGet_set_self]

/-! ### Canonical GIS value types

`rasterio.crs.CRS`, `affine.Affine` and `rasterio.coords.BoundingBox` are
external library types; only the behaviour this code relies on is
embedded.  An `Affine` is the algebraic six-parameter transform
`(a, b, c, d, e, f)`; `Affine.to_gdal` is the affine library method that
re-orders it into the GDAL 6-tuple
(origin-x, pixel-width, row-rotation, origin-y, column-rotation,
pixel-height) = `(c, a, b, f, d, e)`, as also documented in the design
text for the `GeoTransform` attribute. -/

/-- Canonical CRS value (`rasterio.crs.CRS`), identified here by its
well-known-text export, the only field the two source files read. -/
structure CRS where
  wkt : String
deriving DecidableEq, Repr

/-- Canonical affine transform (`affine.Affine`), parameters in algebraic
order `(a, b, c, d, e, f)` with `c`/`f` the x/y origin offsets. -/
structure Affine where
  a : ℚ
  b : ℚ
  c : ℚ
  d : ℚ
  e : ℚ
  f : ℚ
deriving DecidableEq, Repr

/-- The affine library `Affine.to_gdal()`: returns the *tuple*
`(c, a, b, f, d, e)` in GDAL ordering. -/
def Affine.to_gdal (t : Affine) : List ℚ := [t.c, t.a, t.b, t.f, t.d, t.e]

/-- Bounding box record, `rasterio.coords.BoundingBox` =
(left, bottom, right, top). -/
structure BoundingBox where
  left : ℚ
  bottom : ℚ
  right : ℚ
  top : ℚ
deriving DecidableEq, Repr

/-- Shapely geometry subclasses that occur here (members of the
`GEOM_TYPE = find_subclasses(shapely.geometry.base.BaseGeometry)` set). -/
inductive GeomKind where
  | polygon
  | point
deriving DecidableEq, Repr

/-! ### xarray data model

Only what the two source files read or write is represented: dimension
names, the attribute dictionary, coordinate entries and (for the grid
mapping variable) the scalar data value. -/

/-- An xarray `Variable` (also used for coordinate variables such as the
grid mapping variable created by `create_grid_mapping`). -/
structure XVar where
  name : String
  dims : List String
  data : AttrValue
  attrs : List (String × AttrValue)
deriving DecidableEq, Repr

/-- An xarray `DataArray`: named dimensions, attributes and coordinates. -/
structure DataArray where
  name : String
  dims : List String
  attrs : List (String × AttrValue)
  coords : List (String × XVar)
deriving DecidableEq, Repr

/-- An xarray `Dataset`: coordinates, data variables and attributes. -/
structure Dataset where
  coords : List (String × XVar)
  data_vars : List (String × XVar)
  attrs : List (String × AttrValue)
deriving DecidableEq, Repr

/-- Either of the two xarray container types the functions accept. -/
inductive XObj where
  | da (a : DataArray)
  | ds (d : Dataset)
deriving DecidableEq, Repr

/-! ### Python runtime values and types

`convert.py` dispatches on the runtime type of its argument via
`functools.singledispatch`; `conventions.py` checks runtime types with
`assert isinstance(...)`.  `PyVal` covers the runtime types those code
paths distinguish, `PyType` is the type tag and `PyType.mro` the Python
method-resolution order used by `singledispatch` for ancestor fallback. -/

inductive PyVal where
  | vXobj (x : XObj)
  | vCRS (c : CRS)
  | vAffine (t : Affine)
  | vBBox (b : BoundingBox)
  | vGeom (k : GeomKind) (bounds : BoundingBox)
  | vStr (s : String)
  | vInt (n : Int)
  | vBool (b : Bool)
  | vFloat (q : ℚ)
  | vDict (d : List (String × String))
  | vOsr (wkt : String)
  | vSeqTuple (xs : List ℚ)
  | vSeqList (xs : List ℚ)
  | vSeqNdarray (xs : List ℚ)
  | vNone
deriving DecidableEq, Repr

inductive PyType where
  | tDataArray
  | tDataset
  | tCRS
  | tAffine
  | tBBox
  | tPolygon
  | tPoint
  | tBaseGeometry
  | tStr
  | tInt
  | tBool
  | tFloat
  | tDict
  | tOsr
  | tTuple
  | tList
  | tNdarray
  | tNoneType
  | tObject
deriving DecidableEq, BEq, Repr

def typeOf : PyVal → PyType
  | .vXobj (.da _) => .tDataArray
  | .vXobj (.ds _) => .tDataset
  | .vCRS _ => .tCRS
  | .vAffine _ => .tAffine
  | .vBBox _ => .tBBox
  | .vGeom .polygon _ => .tPolygon
  | .vGeom .point _ => .tPoint
  | .vStr _ => .tStr
  | .vInt _ => .tInt
  | .vBool _ => .tBool
  | .vFloat _ => .tFloat
  | .vDict _ => .tDict
  | .vOsr _ => .tOsr
  | .vSeqTuple _ => .tTuple
  | .vSeqList _ => .tList
  | .vSeqNdarray _ => .tNdarray
  | .vNone => .tNoneType

/-- Python name of a runtime type, as an f-string `type(obj)` rendering
would contain it. -/
def typeName : PyType → String
  | .tDataArray => "DataArray"
  | .tDataset => "Dataset"
  | .tCRS => "CRS"
  | .tAffine => "Affine"
  | .tBBox => "BoundingBox"
  | .tPolygon => "Polygon"
  | .tPoint => "Point"
  | .tBaseGeometry => "BaseGeometry"
  | .tStr => "str"
  | .tInt => "int"
  | .tBool => "bool"
  | .tFloat => "float"
  | .tDict => "dict"
  | .tOsr => "SpatialReference"
  | .tTuple => "tuple"
  | .tList => "list"
  | .tNdarray => "ndarray"
  | .tNoneType => "NoneType"
  | .tObject => "object"

/-- Method-resolution order of each runtime type.  `bool` is a subclass
of `int`; shapely geometries derive from `BaseGeometry`; every chain ends
at `object`, where `singledispatch` keeps the undecorated base function. -/
def PyType.mro : PyType → List PyType
  | .tBool => [.tBool, .tInt, .tObject]
  | .tPolygon => [.tPolygon, .tBaseGeometry, .tObject]
  | .tPoint => [.tPoint, .tBaseGeometry, .tObject]
  | t => [t, .tObject]

/-- Dispatch of `functools.singledispatch`: the first type along the
argument type MRO with a registered implementation wins; the entry
registered at `object` is the undecorated base function. -/
def singledispatch_call {β : Type} (registry : List (PyType × (PyVal → Except PyErr β)))
    (dflt : PyVal → Except PyErr β) (v : PyVal) : Except PyErr β :=
  match (typeOf v).mro.findSome? (fun t => registry.lookup t) with
  | some f => f v
  | none => dflt v

/-! ### Model of `src/stems/gis/convert.py`

The rasterio CRS constructors (`CRS.from_wkt`, `CRS.from_string`,
`CRS.from_epsg`, `CRS(dict)`) and the `is_valid` property are external
collaborators; they are passed in as a `RasterioAPI` record whose
operations either return a CRS or raise `CRSError` (modelled as an
`Except String` with the error message). -/

structure RasterioAPI where
  from_wkt : String → Except String CRS
  from_string : String → Except String CRS
  from_epsg : Int → Except String CRS
  from_dict : List (String × String) → Except String CRS
  is_valid : CRS → Except String Bool

/-- Message of the `TypeError` built by `_CANT_CONVERT` (convert.py line
202).  The source literal is
`"Don't know how to convert this type: {type(obj)}"` with NO `f` prefix,
so the braces are not interpolated: the message is this constant text for
every input. -/
def CANT_CONVERT_MESSAGE : String :=
  "Don\x27t know how to convert this type: \x7btype(obj)\x7d"

/-- Embeds `_CANT_CONVERT(obj)`: builds the `TypeError`.  Because the
source string is not an f-string, the argument is ignored. -/
def _CANT_CONVERT (obj : PyVal) : PyErr :=
  PyErr.typeError CANT_CONVERT_MESSAGE

/-- Base (unregistered-type) implementation shared by all four
normalizers: `raise _CANT_CONVERT(value)`. -/
def convertBase {β : Type} (value : PyVal) : Except PyErr β :=
  Except.error (_CANT_CONVERT value)

/-- Embeds `_to_transform_affine`: identity passthrough. -/
def _to_transform_affine (value : PyVal) : Except PyErr Affine :=
  match value with
  | .vAffine t => Except.ok t
  | v => convertBase v

/-- Embeds `to_transform`: `Affine` is the only registered input type. -/
def to_transform (value : PyVal) : Except PyErr Affine :=
  singledispatch_call [(PyType.tAffine, _to_transform_affine)] convertBase value

/-- Embeds `_to_bounds_bounds`: identity passthrough. -/
def _to_bounds_bounds (value : PyVal) : Except PyErr BoundingBox :=
  match value with
  | .vBBox b => Except.ok b
  | v => convertBase v

/-- Embeds `_to_bounds_iter`: `BoundingBox(*value)`; the namedtuple
constructor raises `TypeError` unless exactly four values are given. -/
def _to_bounds_iter (value : PyVal) : Except PyErr BoundingBox :=
  match value with
  | .vSeqTuple xs | .vSeqList xs | .vSeqNdarray xs =>
      match xs with
      | [l, b, r, t] => Except.ok ⟨l, b, r, t⟩
      | _ => Except.error (PyErr.typeError "BoundingBox constructor arity")
  | v => convertBase v

/-- Embeds `_to_bounds_geom`: `BoundingBox(*value.bounds)`; a shapely
geometry is modelled by its `bounds` extent. -/
def _to_bounds_geom (value : PyVal) : Except PyErr BoundingBox :=
  match value with
  | .vGeom _ b => Except.ok b
  | v => convertBase v

/-- Embeds `to_bounds` with its registrations: `BoundingBox`; `tuple`,
`list`, `np.ndarray`; and every member of `GEOM_TYPE`. -/
def to_bounds (value : PyVal) : Except PyErr BoundingBox :=
  singledispatch_call
    [(PyType.tBBox, _to_bounds_bounds),
     (PyType.tTuple, _to_bounds_iter),
     (PyType.tList, _to_bounds_iter),
     (PyType.tNdarray, _to_bounds_iter),
     (PyType.tPolygon, _to_bounds_geom),
     (PyType.tPoint, _to_bounds_geom)]
    convertBase value

/-- Embeds `_to_crs_crs`: identity passthrough. -/
def _to_crs_crs (value : PyVal) : Except PyErr CRS :=
  match value with
  | .vCRS c => Except.ok c
  | v => convertBase v

/-- One parse attempt of `_to_crs_str`: run the parser, then evaluate the
`crs_.is_valid` property (its Bool result is discarded by the source; the
attempt only fails when the parser or the property raises `CRSError`). -/
def crsParseAttempt (parse : String → Except String CRS)
    (validity : CRS → Except String Bool) (value : String) : Except String CRS :=
  match parse value with
  | Except.error e => Except.error e
  | Except.ok crs_ =>
      match validity crs_ with
      | Except.error e => Except.error e
      | Except.ok _ => Except.ok crs_

/-- Embeds `_to_crs_str` (convert.py lines 136-151): try WKT first; on
`CRSError` try the Proj string parser; on a second `CRSError` raise the
combined-failure `CRSError`. -/
def _to_crs_str (R : RasterioAPI) (value : String) : Except PyErr CRS :=
  match crsParseAttempt R.from_wkt R.is_valid value with
  | Except.ok crs_ => Except.ok crs_
  | Except.error _ =>
      match crsParseAttempt R.from_string R.is_valid value with
      | Except.ok crs_ => Except.ok crs_
      | Except.error _ =>
          Except.error (PyErr.crsError
            "Could not interpret CRS input as either WKT or Proj4")

/-- Embeds `_to_crs_epsg`: `CRS.from_epsg(value)`. -/
def _to_crs_epsg (R : RasterioAPI) (value : PyVal) : Except PyErr CRS :=
  match value with
  | .vInt n => (R.from_epsg n).mapError PyErr.crsError
  | .vBool b => (R.from_epsg (if b then 1 else 0)).mapError PyErr.crsError
  | v => convertBase v

/-- Embeds `_to_crs_dict`: `CRS(value)`. -/
def _to_crs_dict (R : RasterioAPI) (value : PyVal) : Except PyErr CRS :=
  match value with
  | .vDict d => (R.from_dict d).mapError PyErr.crsError
  | v => convertBase v

/-- Embeds `_to_crs_osr`: `CRS.from_wkt(value.ExportToWkt())`. -/
def _to_crs_osr (R : RasterioAPI) (value : PyVal) : Except PyErr CRS :=
  match value with
  | .vOsr w => (R.from_wkt w).mapError PyErr.crsError
  | v => convertBase v

/-- Embeds `to_crs` with its registrations: `CRS`, `str`, `int`, `dict`,
`osr.SpatialReference`. -/
def to_crs (R : RasterioAPI) (value : PyVal) : Except PyErr CRS :=
  singledispatch_call
    [(PyType.tCRS, _to_crs_crs),
     (PyType.tStr, fun v =>
        match v with
        | .vStr s => _to_crs_str R s
        | w => convertBase w),
     (PyType.tInt, _to_crs_epsg R),
     (PyType.tDict, _to_crs_dict R),
     (PyType.tOsr, _to_crs_osr R)]
    convertBase value

/-- Embeds `shapely.geometry.box(minx, miny, maxx, maxy)`: a rectangular
polygon, modelled by its bounds. -/
def shapely_box (b : BoundingBox) : PyVal :=
  PyVal.vGeom GeomKind.polygon b

/-- Embeds `_to_bbox_bounds`: `shapely.geometry.box(*value)`. -/
def _to_bbox_bounds (value : PyVal) : Except PyErr PyVal :=
  match value with
  | .vBBox b => Except.ok (shapely_box b)
  | v => convertBase v

/-- Embeds `_to_bbox_geom`: `_to_bbox_bounds(BoundingBox(*value.bounds))`. -/
def _to_bbox_geom (value : PyVal) : Except PyErr PyVal :=
  match value with
  | .vGeom _ b => _to_bbox_bounds (PyVal.vBBox b)
  | v => convertBase v

/-- Embeds `to_bbox` with its registrations: every member of `GEOM_TYPE`
and `BoundingBox`. -/
def to_bbox (value : PyVal) : Except PyErr PyVal :=
  singledispatch_call
    [(PyType.tPolygon, _to_bbox_geom),
     (PyType.tPoint, _to_bbox_geom),
     (PyType.tBBox, _to_bbox_bounds)]
    convertBase value

/-- Substring test on the underlying character lists (used to state that
an error message does or does not name a runtime type). -/
def charsPrefixTest : List Char → List Char → Bool
  | [], _ => true
  | _ :: _, [] => false
  | a :: as, b :: bs => a == b && charsPrefixTest as bs

def charsContain (needle : List Char) : List Char → Bool
  | [] => charsPrefixTest needle []
  | c :: rest => charsPrefixTest needle (c :: rest) || charsContain needle rest

def strContains (hay needle : String) : Bool :=
  charsContain needle.data hay.data

/-! ### Model of `src/stems/gis/conventions.py`

The `stems.gis.projections` module is imported by `conventions.py` but is
not among the sources here.  Modelled from the spec: the Projection
Service interface of design section 6 (`grid_mapping_name`,
`authority_code`, CF projection/ellipsoid parameter mappings, axis
names), carried as a `ProjService` record so every theorem quantifies
over all service behaviours.  `epsg_code` answers `AUTH:CODE` or `None`;
its failure mode is the `ValueError` that `create_grid_mapping`
anticipates in its `try/except ValueError` block. -/

structure ProjService where
  cf_crs_name : CRS → String
  epsg_code : CRS → Except Unit (Option String)
  cf_crs_attrs : CRS → List (String × AttrValue)
  cf_proj_params : CRS → List (String × AttrValue)
  cf_ellps_params : CRS → List (String × AttrValue)
  cf_xy_coord_names : CRS → String × String

/-- Embeds `CF_NC_ATTRS` (conventions.py lines 58-60). -/
def CF_NC_ATTRS : List (String × AttrValue) :=
  [("Conventions", AttrValue.str "CF-1.7")]

/-- Embeds the per-attribute fixup of `create_grid_mapping` (lines
256-260): a native `list`/`tuple` value becomes `np.asarray(value)`;
other values are untouched. -/
def fixupAttr : AttrValue → AttrValue
  | .list xs => .ndarray xs
  | .tuple xs => .ndarray xs
  | v => v

/-- True exactly on native Python sequence values (`list`/`tuple`). -/
def isNativeSeq : AttrValue → Bool
  | .list _ => true
  | .tuple _ => true
  | _ => false

/-- True when an (optional) attribute value is a text string. -/
def attrIsText : Option AttrValue → Bool
  | some (.str _) => true
  | _ => false

/-- Embeds `_georeference_attrs_gdal` (lines 305-311): `spatial_ref` is
the WKT export, `GeoTransform` is the value of `transform.to_gdal()` — a
native tuple of the six parameters, not a text encoding. -/
def _georeference_attrs_gdal (crs : CRS) (transform : Affine) :
    List (String × AttrValue) :=
  [("spatial_ref", AttrValue.str crs.wkt),
   ("GeoTransform", AttrValue.tuple transform.to_gdal)]

/-- Embeds the EPSG block of `create_grid_mapping` (lines 232-241):
`try: epsg_code = projections.epsg_code(crs) or 0 / except ValueError:
epsg_code = 0 / else: ...split/int/np.array...`.  The `except` branch
leaves a plain Python `0`; the `else` branch wraps `int(...)` as a numpy
scalar.  A successful answer that is not of the `AUTH:CODE` shape makes
the uncaught unpacking or `int()` call raise `ValueError`. -/
def compute_epsg_data (P : ProjService) (crs : CRS) : Except PyErr AttrValue :=
  match P.epsg_code crs with
  | Except.error _ => Except.ok (AttrValue.int 0)
  | Except.ok answer =>
      let code0 : Option String :=
        match answer with
        | none => none
        | some s => if s = "" then none else some s
      match code0 with
      | none => Except.ok (AttrValue.ndscalar 0)
      | some s =>
          match s.splitOn ":" with
          | [_, codeStr] =>
              match codeStr.toInt? with
              | some n => Except.ok (AttrValue.ndscalar n)
              | none => Except.error PyErr.valueError
          | _ => Except.error PyErr.valueError

/-- Attribute pipeline of `create_grid_mapping` (lines 243-260):
`grid_mapping_name` first, then the CF attribute/parameter updates from
the Projection Service, then the GDAL compatibility attributes, then the
list/tuple fixup over every attribute. -/
def build_gm_attrs (P : ProjService) (crs : CRS) (transform : Affine) :
    List (String × AttrValue) :=
  let attrs := [("grid_mapping_name", AttrValue.str (P.cf_crs_name crs))]
  let attrs := alistUpdate attrs (P.cf_crs_attrs crs)
  let attrs := alistUpdate attrs (P.cf_proj_params crs)
  let attrs := alistUpdate attrs (P.cf_ellps_params crs)
  let attrs := alistUpdate attrs (_georeference_attrs_gdal crs transform)
  mapVals fixupAttr attrs

/-- Embeds `create_grid_mapping(crs, transform, grid_mapping)` (lines
213-262): a scalar `DataArray` named `grid_mapping` whose data is the
resolved EPSG code (or the `0` sentinel) and whose attributes are built
by `build_gm_attrs`. -/
def create_grid_mapping (P : ProjService) (crs : CRS) (transform : Affine)
    (grid_mapping : String) : Except PyErr XVar :=
  match compute_epsg_data P crs with
  | Except.error e => Except.error e
  | Except.ok epsgData =>
      Except.ok
        { name := grid_mapping
          dims := []
          data := epsgData
          attrs := build_gm_attrs P crs transform }

/-- Embeds `get_grid_mapping(xarr, grid_mapping)` (lines 188-210):
`xarr.coords.get(grid_mapping, None)`; the `KeyError` raised on `None`
is represented by the `none` result (its only caller catches it). -/
def get_grid_mapping (xarr : XObj) (grid_mapping : String) : Option XVar :=
  match xarr with
  | .da a => alistGet a.coords grid_mapping
  | .ds d => alistGet d.coords grid_mapping

/-- Embeds `_check_georef(xarr, attrs)` (lines 175-183): all of the
listed keys are present in the attribute dictionary. -/
def _check_georef (attrs : List (String × AttrValue)) (keys : List String) : Bool :=
  keys.all (fun a => alistHas attrs a)

/-- Embeds `_georef(x, dim_x, dim_y, grid_mapping)` (lines 166-172) for a
variable of a dataset: stamp `grid_mapping` only when both expected
dimensions are present. -/
def _georef (x : XVar) (dim_x dim_y grid_mapping : String) : XVar :=
  if x.dims.contains dim_x && x.dims.contains dim_y then
    { x with attrs := alistSet x.attrs "grid_mapping" (AttrValue.str grid_mapping) }
  else x

/-- Embeds `_georef` applied to a whole `DataArray` (the
`isinstance(xarr, xr.DataArray)` branch of `georeference`). -/
def _georef_da (x : DataArray) (dim_x dim_y grid_mapping : String) : DataArray :=
  if x.dims.contains dim_x && x.dims.contains dim_y then
    { x with attrs := alistSet x.attrs "grid_mapping" (AttrValue.str grid_mapping) }
  else x

/-- Embeds the body of `georeference(xarr, crs, transform, grid_mapping)`
(lines 92-110), after the asserts: attach the grid mapping coordinate,
stamp `grid_mapping` on the array itself or on each data variable, and
update the container attributes with `CF_NC_ATTRS`. -/
def georeference (P : ProjService) (xarr : XObj) (crs : CRS) (transform : Affine)
    (grid_mapping : String) : Except PyErr XObj :=
  match create_grid_mapping P crs transform grid_mapping with
  | Except.error e => Except.error e
  | Except.ok gm =>
      let dim_x := (P.cf_xy_coord_names crs).1
      let dim_y := (P.cf_xy_coord_names crs).2
      match xarr with
      | .da a =>
          let a := { a with coords := alistSet a.coords grid_mapping gm }
          let a := _georef_da a dim_x dim_y grid_mapping
          Except.ok (.da { a with attrs := alistUpdate a.attrs CF_NC_ATTRS })
      | .ds d =>
          let d := { d with coords := alistSet d.coords grid_mapping gm }
          let d := { d with
            data_vars := d.data_vars.map
              (fun (p : String × XVar) => (p.1, _georef p.2 dim_x dim_y grid_mapping)) }
          Except.ok (.ds { d with attrs := alistUpdate d.attrs CF_NC_ATTRS })

/-- Embeds the body of `is_georeferenced` (lines 133-163), after the
assert.  Two slips of the source are reproduced faithfully: line 139
calls `get_grid_mapping(xarr)` WITHOUT forwarding the `grid_mapping`
argument, so the default coordinate name `"crs"` is always inspected;
and line 149 reads `require_gdal`, a name that is bound nowhere (the
parameter on line 113 is spelled `required_gdal`), so whenever the GDAL
attributes are missing the evaluation of `not gdal_ok and require_gdal`
raises `NameError` instead of returning a Bool.  Neither parameter of
the Python function is ever read in its body. -/
def _is_georeferenced_body (xarr : XObj) : Except PyErr Bool :=
  match get_grid_mapping xarr "crs" with
  | none => Except.ok false
  | some var_grid_mapping =>
      let cf_ok := _check_georef var_grid_mapping.attrs ["grid_mapping_name"]
      let gdal_ok := _check_georef var_grid_mapping.attrs ["spatial_ref", "GeoTransform"]
      if cf_ok = false then Except.ok false
      else if gdal_ok = false then Except.error (PyErr.nameError "require_gdal")
      else
        match xarr with
        | .da a => Except.ok (_check_georef a.attrs ["grid_mapping"])
        | .ds d =>
            Except.ok (d.data_vars.any (fun p => _check_georef p.2.attrs ["grid_mapping"]))

/-- Embeds `is_georeferenced(xarr, grid_mapping, required_gdal)` for
well-typed arguments.  Both optional parameters are accepted and, as in
the source body, never used. -/
def is_georeferenced (xarr : XObj) (grid_mapping : String) (required_gdal : Bool) :
    Except PyErr Bool :=
  _is_georeferenced_body xarr

/-- Classifies the four `georeference` arguments as the asserts on lines
86-89 do: the data must be a `DataArray`/`Dataset`, the CRS a
`rasterio.crs.CRS`, the transform an `affine.Affine` and the grid mapping
name a `str`. -/
def georef_args_classify : PyVal → PyVal → PyVal → PyVal →
    Option (XObj × CRS × Affine × String)
  | .vXobj x, .vCRS c, .vAffine t, .vStr g => some (x, c, t, g)
  | _, _, _, _ => none

def georef_args_ok (v1 v2 v3 v4 : PyVal) : Bool :=
  (georef_args_classify v1 v2 v3 v4).isSome

/-- Untyped entry point of `georeference` (lines 86-110) including the
`inplace` handling.  The result is the pair (state of the CALLER'S
argument after the call, call result).  With `inplace=False` the body
works on `xarr.copy()`; an xarray shallow copy has fresh container
dictionaries and a fresh per-variable attribute dictionary, so attribute
and coordinate writes on the copy are invisible on the original — the
caller keeps the unmodified value.  With `inplace=True` the body aliases
the argument, so the caller observes the mutated value. -/
def georeference_call (P : ProjService) (v_xarr v_crs v_transform v_grid_mapping : PyVal)
    (inplace : Bool) : PyVal × Except PyErr PyVal :=
  match georef_args_classify v_xarr v_crs v_transform v_grid_mapping with
  | none => (v_xarr, Except.error PyErr.assertionError)
  | some (x, c, t, g) =>
      match georeference P x c t g with
      | Except.ok r =>
          (if inplace then PyVal.vXobj r else v_xarr, Except.ok (PyVal.vXobj r))
      | Except.error e => (v_xarr, Except.error e)

/-- True exactly when a Python value is an xarray `DataArray`/`Dataset`. -/
def isXObj : PyVal → Bool
  | .vXobj _ => true
  | _ => false

/-- Untyped entry point of `is_georeferenced` (line 131): only the data
argument is type-checked by an assert; the other two arguments are not
validated (and the body never reads them). -/
def is_georeferenced_call (v_xarr v_grid_mapping v_required_gdal : PyVal) :
    Except PyErr Bool :=
  match v_xarr with
  | .vXobj x => _is_georeferenced_body x
  | _ => Except.error PyErr.assertionError

/-! ### Concrete fixtures used by witnesses and counterexamples -/

/-- A geographic CRS fixture with a short WKT export. -/
def crs0 : CRS := { wkt := "GEOGCS[wgs84]" }

/-- The transform of the design document end-to-end example, algebraic
ordering `(a, b, c, d, e, f) = (0.1, 0, -180, 0, -0.1, 90)`. -/
def t0 : Affine := { a := 1/10, b := 0, c := -180, d := 0, e := -1/10, f := 90 }

/-- A concrete Projection Service: geographic axes, no resolvable EPSG
code, one list-valued ellipsoid parameter. -/
def P0 : ProjService :=
  { cf_crs_name := fun _ => "latitude_longitude"
    epsg_code := fun _ => Except.ok none
    cf_crs_attrs := fun _ => []
    cf_proj_params := fun _ => []
    cf_ellps_params := fun _ => [("semi_major", AttrValue.list [6378137])]
    cf_xy_coord_names := fun _ => ("longitude", "latitude") }

/-- The grid mapping record `create_grid_mapping P0 crs0 t0 "crs"`
produces: EPSG sentinel data `0`, CF name, the ellipsoid parameter as a
numpy array, and the two GDAL attributes. -/
def gmRecord0 : XVar :=
  { name := "crs"
    dims := []
    data := AttrValue.ndscalar 0
    attrs := [("grid_mapping_name", AttrValue.str "latitude_longitude"),
              ("semi_major", AttrValue.ndarray [6378137]),
              ("spatial_ref", AttrValue.str "GEOGCS[wgs84]"),
              ("GeoTransform", AttrValue.ndarray [-180, 1/10, 0, 90, 0, -1/10])] }

/-- A fully populated grid mapping coordinate (CF and GDAL attributes). -/
def gmFull : XVar :=
  { name := "crs"
    dims := []
    data := AttrValue.ndscalar 4326
    attrs := [("grid_mapping_name", AttrValue.str "latitude_longitude"),
              ("spatial_ref", AttrValue.str "GEOGCS[wgs84]"),
              ("GeoTransform", AttrValue.ndarray [-180, 1/10, 0, 90, 0, -1/10])] }

/-- A data variable with spatial dimensions, stamped with `grid_mapping`. -/
def dvStamped : XVar :=
  { name := "ndvi"
    dims := ["latitude", "longitude"]
    data := AttrValue.int 0
    attrs := [("grid_mapping", AttrValue.str "crs")] }

/-- A dataset that is fully georeferenced under the DEFAULT coordinate
name `"crs"` and has no coordinate of any other name. -/
def dsGeoref : Dataset :=
  { coords := [("crs", gmFull)]
    data_vars := [("ndvi", dvStamped)]
    attrs := [] }

/-- A grid mapping coordinate carrying only the CF attribute, with both
GDAL attributes missing. -/
def gmCfOnly : XVar :=
  { name := "crs"
    dims := []
    data := AttrValue.ndscalar 0
    attrs := [("grid_mapping_name", AttrValue.str "latitude_longitude")] }

/-- A `DataArray` whose grid mapping coordinate lacks the GDAL
attributes. -/
def daCfOnly : DataArray :=
  { name := "ndvi"
    dims := ["latitude", "longitude"]
    attrs := [("grid_mapping", AttrValue.str "crs")]
    coords := [("crs", gmCfOnly)] }

/-- A rasterio parser fixture where every WKT parse fails with `CRSError`
and every Proj-string parse succeeds. -/
def R1 : RasterioAPI :=
  { from_wkt := fun _ => Except.error "CRSError: invalid WKT"
    from_string := fun _ => Except.ok crs0
    from_epsg := fun _ => Except.ok crs0
    from_dict := fun _ => Except.ok crs0
    is_valid := fun _ => Except.ok true }

/-! ### Claims C1-C3 (code bugs observed in the source) -/

/-- C1: the claim says `is_georeferenced(d, grid_mapping=g)` returns
`False` whenever `d` has no coordinate named `g`, for EVERY name `g`.
The code violates this: line 139 calls `get_grid_mapping(xarr)` without
forwarding `grid_mapping`, so the default name `"crs"` is always looked
up.  On a dataset having a fully georeferenced `"crs"` coordinate but no
coordinate named `"proj_info"`, the call with `grid_mapping="proj_info"`
returns `True` instead of the `False` the claim requires. -/
theorem C1_is_georeferenced_ignores_grid_mapping_name :
    alistGet dsGeoref.coords "proj_info" = none ∧
    is_georeferenced (XObj.ds dsGeoref) "proj_info" false = Except.ok true :=
  ⟨rfl, rfl⟩

/-- C2: the claim says that with the GDAL-requirement flag unset, missing
`spatial_ref`/`GeoTransform` do not affect the result, and that the
detector returns a Bool and never raises for this not-georeferenced
condition.  The code violates this: line 149 evaluates `require_gdal`, an
unbound name (the parameter is spelled `required_gdal`), so a grid
mapping coordinate that carries `grid_mapping_name` but lacks the GDAL
attributes makes `is_georeferenced` raise `NameError` regardless of the
flag.  The conjuncts exhibit the failing condition: the CF check passes,
the GDAL check fails, and the call raises instead of returning. -/
theorem C2_missing_gdal_attrs_raise_nameerror :
    _check_georef gmCfOnly.attrs ["grid_mapping_name"] = true ∧
    _check_georef gmCfOnly.attrs ["spatial_ref", "GeoTransform"] = false ∧
    is_georeferenced (XObj.da daCfOnly) "crs" false =
      Except.error (PyErr.nameError "require_gdal") :=
  ⟨rfl, rfl, rfl⟩

/-- C3: the claim says each normalizer fails on an unregistered input
type with an unconvertible-type error whose message NAMES the offending
runtime type.  The four normalizers do all raise the `TypeError` from
`_CANT_CONVERT`, but the source string lacks the `f` prefix, so the
message is the constant literal with an uninterpolated placeholder and
names no type: at a `float` input (registered nowhere, and its MRO
offers no registered ancestor) the message does not contain `"float"`. -/
theorem C3_cant_convert_message_names_no_type :
    to_crs R1 (PyVal.vFloat (3/2)) = Except.error (PyErr.typeError CANT_CONVERT_MESSAGE) ∧
    to_transform (PyVal.vFloat (3/2)) = Except.error (PyErr.typeError CANT_CONVERT_MESSAGE) ∧
    to_bounds (PyVal.vFloat (3/2)) = Except.error (PyErr.typeError CANT_CONVERT_MESSAGE) ∧
    to_bbox (PyVal.vFloat (3/2)) = Except.error (PyErr.typeError CANT_CONVERT_MESSAGE) ∧
    strContains CANT_CONVERT_MESSAGE (typeName (typeOf (PyVal.vFloat (3/2)))) = false :=
  ⟨rfl, rfl, rfl, rfl, by decide⟩

/-! ### Structure lemmas for `create_grid_mapping` -/

theorem create_grid_mapping_ok_attrs (P : ProjService) (c : CRS) (t : Affine)
    (g : String) (da : XVar) (h : create_grid_mapping P c t g = Except.ok da) :
    da.attrs = build_gm_attrs P c t := by
  unfold create_grid_mapping at h
  cases hc : compute_epsg_data P c with
  | error e => rw [hc] at h; exact absurd h (by simp)
  | ok d => rw [hc] at h; cases h; rfl

theorem isNativeSeq_fixupAttr (v : AttrValue) : isNativeSeq (fixupAttr v) = false := by
  cases v <;> rfl

theorem build_gm_attrs_has_required (P : ProjService) (c : CRS) (t : Affine) :
    alistHas (build_gm_attrs P c t) "grid_mapping_name" = true ∧
    alistHas (build_gm_attrs P c t) "spatial_ref" = true ∧
    alistHas (build_gm_attrs P c t) "GeoTransform" = true := by
  simp only [build_gm_attrs, _georeference_attrs_gdal, alistUpdate, List.foldl]
  refine ⟨?_, ?_, ?_⟩
  · rw [alistHas_mapVals, alistHas_set, alistHas_set]
    have h0 : alistHas (alistUpdate (alistUpdate (alistUpdate
        [("grid_mapping_name", AttrValue.str (P.cf_crs_name c))]
        (P.cf_crs_attrs c)) (P.cf_proj_params c)) (P.cf_ellps_params c))
        "grid_mapping_name" = true := by
      refine alistHas_update_of_has _ _ _ (alistHas_update_of_has _ _ _
        (alistHas_update_of_has _ _ _ ?_))
      rfl
    simp only [alistUpdate] at h0
    rw [h0]
    rfl
  · rw [alistHas_mapVals, alistHas_set, alistHas_set]
    simp
  · rw [alistHas_mapVals, alistGet_set_self_has]

/-! ### Claim C4 (corrected: the GeoTransform value is numeric, not text) -/

/-- C4 counterexample: at the concrete inputs `P0`, `crs0`, `t0` the
record returned by `create_grid_mapping` holds `GeoTransform` as a numpy
array of the six numbers in GDAL ordering, NOT as a text encoding, so
the claim as stated (text-encoded value) is false. -/
theorem C4_counterexample_geotransform_not_text :
    create_grid_mapping P0 crs0 t0 "crs" = Except.ok gmRecord0 ∧
    attrIsText (alistGet gmRecord0.attrs "GeoTransform") = false ∧
    alistGet gmRecord0.attrs "GeoTransform" =
      some (AttrValue.ndarray [-180, 1/10, 0, 90, 0, -1/10]) :=
  ⟨rfl, rfl, rfl⟩

/-- C4 (amended): for every CRS, Transform and Projection Service answer
set, the record returned by `create_grid_mapping` carries a
`GeoTransform` attribute holding the six transform parameters in GDAL
ordering (origin-x, pixel-width, row-rotation, origin-y,
column-rotation, pixel-height) converted from the algebraic affine
ordering rather than copied verbatim — stored as a fixed-size numeric
array, not text-encoded — and a `spatial_ref` attribute equal to the
well-known-text string of the CRS. -/
theorem C4_amended_gdal_attrs (P : ProjService) (crs : CRS) (t : Affine) (g : String)
    (da : XVar) (h : create_grid_mapping P crs t g = Except.ok da) :
    alistGet da.attrs "GeoTransform" = some (AttrValue.ndarray (Affine.to_gdal t)) ∧
    Affine.to_gdal t = [t.c, t.a, t.b, t.f, t.d, t.e] ∧
    alistGet da.attrs "spatial_ref" = some (AttrValue.str crs.wkt) := by
  have hattrs := create_grid_mapping_ok_attrs P crs t g da h
  rw [hattrs]
  simp only [build_gm_attrs, _georeference_attrs_gdal, alistUpdate, List.foldl]
  refine ⟨?_, rfl, ?_⟩
  · rw [alistGet_mapVals, alistGet_set_self]
    rfl
  · rw [alistGet_mapVals,
        alistGet_set_ne _ "GeoTransform" "spatial_ref" _ (by decide),
        alistGet_set_self]
    rfl

/-- C4 witness: the amended theorem applied at the concrete fixtures. -/
theorem C4_amended_gdal_attrs_witness :
    alistGet gmRecord0.attrs "GeoTransform" =
      some (AttrValue.ndarray (Affine.to_gdal t0)) ∧
    Affine.to_gdal t0 = [t0.c, t0.a, t0.b, t0.f, t0.d, t0.e] ∧
    alistGet gmRecord0.attrs "spatial_ref" = some (AttrValue.str crs0.wkt) :=
  C4_amended_gdal_attrs P0 crs0 t0 "crs" gmRecord0 rfl

/-! ### Claim C6 (authority-code sentinel) -/

/-- C6: for every Projection Service, CRS and Transform, if EPSG
resolution raises (`ValueError`) or yields no code, `create_grid_mapping`
succeeds — it never raises — and the authority-code field of the record
(its scalar data) is the sentinel `0`. -/
theorem C6_epsg_sentinel_zero (P : ProjService) (crs : CRS) (t : Affine) (g : String)
    (h : P.epsg_code crs = Except.error () ∨ P.epsg_code crs = Except.ok none) :
    ∃ da, create_grid_mapping P crs t g = Except.ok da ∧
      (da.data = AttrValue.int 0 ∨ da.data = AttrValue.ndscalar 0) := by
  rcases h with h | h
  · refine ⟨{ name := g, dims := [], data := AttrValue.int 0,
              attrs := build_gm_attrs P crs t }, ?_, Or.inl rfl⟩
    simp [create_grid_mapping, compute_epsg_data, h]
  · refine ⟨{ name := g, dims := [], data := AttrValue.ndscalar 0,
              attrs := build_gm_attrs P crs t }, ?_, Or.inr rfl⟩
    simp [create_grid_mapping, compute_epsg_data, h]

/-- C6 witness: `P0` resolves no EPSG code and synthesis succeeds with
the `0` sentinel. -/
theorem C6_epsg_sentinel_zero_witness :
    ∃ da, create_grid_mapping P0 crs0 t0 "crs" = Except.ok da ∧
      (da.data = AttrValue.int 0 ∨ da.data = AttrValue.ndscalar 0) :=
  C6_epsg_sentinel_zero P0 crs0 t0 "crs" (Or.inr rfl)

/-! ### Claim C7 (attribute type normalization) -/

/-- C7: for every CRS, Transform and Projection Service answer set,
every attribute of a record returned by `create_grid_mapping` is a
non-native-sequence value: the final fixup pass turns every `list` or
`tuple` into a fixed-size numpy array, so no attribute of the result is
stored as a native Python sequence. -/
theorem C7_no_native_sequence_attrs (P : ProjService) (crs : CRS) (t : Affine)
    (g k : String) (da : XVar) (v : AttrValue)
    (h : create_grid_mapping P crs t g = Except.ok da)
    (hget : alistGet da.attrs k = some v) :
    isNativeSeq v = false := by
  have hattrs := create_grid_mapping_ok_attrs P crs t g da h
  rw [hattrs] at hget
  simp only [build_gm_attrs] at hget
  rw [alistGet_mapVals, Option.map_eq_some'] at hget
  obtain ⟨w, hw, hv⟩ := hget
  rw [hv.symm]
  exact isNativeSeq_fixupAttr w

/-- C7 witness: the ellipsoid parameter that the service produced as a
native list is stored in the concrete record as a numpy array. -/
theorem C7_no_native_sequence_attrs_witness :
    alistGet gmRecord0.attrs "semi_major" = some (AttrValue.ndarray [6378137]) ∧
    isNativeSeq (AttrValue.ndarray [6378137]) = false :=
  ⟨rfl, C7_no_native_sequence_attrs P0 crs0 t0 "crs" "semi_major" gmRecord0
    (AttrValue.ndarray [6378137]) rfl rfl⟩

/-! ### Claim C5 (WKT-then-Proj fallback precedence) -/

/-- C5: for every string that the WKT parser rejects with `CRSError`
while the Proj-string parser accepts it (and the validity access on the
parse result returns), `to_crs` succeeds by falling through to the
secondary parser, and the result is exactly the CRS of the direct
Proj-string parse. -/
theorem C5_wkt_fallback_to_proj (R : RasterioAPI) (s : String) (c : CRS)
    (e : String) (b : Bool)
    (hwkt : R.from_wkt s = Except.error e)
    (hproj : R.from_string s = Except.ok c)
    (hvalid : R.is_valid c = Except.ok b) :
    to_crs R (PyVal.vStr s) = Except.ok c := by
  have hdisp : to_crs R (PyVal.vStr s) = _to_crs_str R s := rfl
  rw [hdisp]
  unfold _to_crs_str
  have hfail : crsParseAttempt R.from_wkt R.is_valid s = Except.error e := by
    unfold crsParseAttempt
    rw [hwkt]
  have hok : crsParseAttempt R.from_string R.is_valid s = Except.ok c := by
    unfold crsParseAttempt
    simp only [hproj, hvalid]
  rw [hfail, hok]

/-- C5 witness: a Proj-style string under a parser fixture whose WKT
parse always raises `CRSError`. -/
theorem C5_wkt_fallback_to_proj_witness :
    R1.from_wkt "+proj=longlat +datum=WGS84" = Except.error "CRSError: invalid WKT" ∧
    R1.from_string "+proj=longlat +datum=WGS84" = Except.ok crs0 ∧
    to_crs R1 (PyVal.vStr "+proj=longlat +datum=WGS84") = Except.ok crs0 :=
  ⟨rfl, rfl,
   C5_wkt_fallback_to_proj R1 "+proj=longlat +datum=WGS84" crs0
     "CRSError: invalid WKT" true rfl rfl rfl⟩

/-! ### Claim C9 (inplace=False leaves the caller's object untouched) -/

/-- C9: for every Projection Service and every four argument values,
calling `georeference` with `inplace=False` leaves the state of the
caller's data argument unchanged — no coordinate and no attribute is
added to or changed on the original or any of its variables — whether
the call succeeds, raises an assertion error, or propagates an
exception from grid-mapping synthesis. -/
theorem C9_inplace_false_preserves_caller (P : ProjService) (v1 v2 v3 v4 : PyVal) :
    (georeference_call P v1 v2 v3 v4 false).1 = v1 := by
  unfold georeference_call
  cases hcl : georef_args_classify v1 v2 v3 v4 with
  | none => rfl
  | some q =>
      obtain ⟨x, c, t, g⟩ := q
      cases hg : georeference P x c t g with
      | ok r => simp [hg]
      | error e => simp [hg]

/-! ### Claim C10 (argument type asserts; corrected) -/

theorem isXObj_true_iff (v : PyVal) : isXObj v = true ↔ ∃ x, v = PyVal.vXobj x := by
  cases v <;> simp [isXObj]

/-- Helper: the body of `is_georeferenced` can return a Bool or raise
`NameError`, but never an `AssertionError`. -/
theorem is_georeferenced_body_no_assert (x : XObj) :
    _is_georeferenced_body x ≠ Except.error PyErr.assertionError := by
  unfold _is_georeferenced_body
  cases hg : get_grid_mapping x "crs" with
  | none => simp
  | some g =>
      by_cases h1 : _check_georef g.attrs ["grid_mapping_name"] = false
      · simp [h1]
      · by_cases h2 : _check_georef g.attrs ["spatial_ref", "GeoTransform"] = false
        · simp [h1, h2]
        · cases x <;> simp [h1, h2]

/-- C10 counterexample: the claim requires an immediate assertion error
when the grid-mapping name argument is not a string; but
`is_georeferenced` called on a valid dataset with an `int` grid-mapping
name (and a non-Bool flag) runs to completion and returns a Bool. -/
theorem C10_counterexample_name_not_checked :
    is_georeferenced_call (PyVal.vXobj (XObj.ds dsGeoref)) (PyVal.vInt 5) PyVal.vNone =
      Except.ok true :=
  rfl

/-- C10 (amended): `georeference` asserts all four argument types — any
call whose data is not a `DataArray`/`Dataset`, whose crs is not a
canonical CRS, whose transform is not an `Affine`, or whose grid-mapping
name is not a `str` (for example a WKT string or an EPSG integer passed
as crs) fails immediately with an assertion error, before any
grid-mapping record is built or any attribute is written (the caller's
argument is returned unchanged).  `is_georeferenced` asserts only that
its data argument is a `DataArray`/`Dataset`; it performs no check on
its other arguments, and with a well-typed data argument it never
raises an assertion error. -/
theorem C10_amended_assert_behavior (P : ProjService) (v1 v2 v3 v4 w2 w3 : PyVal)
    (inplace : Bool) :
    (georef_args_ok v1 v2 v3 v4 = false →
      georeference_call P v1 v2 v3 v4 inplace =
        (v1, Except.error PyErr.assertionError)) ∧
    (isXObj v1 = false →
      is_georeferenced_call v1 w2 w3 = Except.error PyErr.assertionError) ∧
    (isXObj v1 = true →
      is_georeferenced_call v1 w2 w3 ≠ Except.error PyErr.assertionError) := by
  refine ⟨?_, ?_, ?_⟩
  · intro h
    unfold georef_args_ok at h
    unfold georeference_call
    cases hcl : georef_args_classify v1 v2 v3 v4 with
    | none => rfl
    | some q =>
        rw [hcl] at h
        simp at h
  · intro h
    cases v1 <;> simp_all [is_georeferenced_call, isXObj]
  · intro h
    obtain ⟨x, rfl⟩ := (isXObj_true_iff v1).mp h
    exact is_georeferenced_body_no_assert x

/-- C10 witness: a call passing a WKT string where the CRS is expected
asserts and leaves the dataset untouched; a call whose data argument is
a plain string asserts as well. -/
theorem C10_amended_assert_behavior_witness :
    georeference_call P0 (PyVal.vXobj (XObj.ds dsGeoref)) (PyVal.vStr "EPSG:4326")
        (PyVal.vAffine t0) (PyVal.vStr "crs") false =
      (PyVal.vXobj (XObj.ds dsGeoref), Except.error PyErr.assertionError) ∧
    is_georeferenced_call (PyVal.vStr "not-a-dataset") (PyVal.vStr "crs") PyVal.vNone =
      Except.error PyErr.assertionError :=
  ⟨(C10_amended_assert_behavior P0 (PyVal.vXobj (XObj.ds dsGeoref))
      (PyVal.vStr "EPSG:4326") (PyVal.vAffine t0) (PyVal.vStr "crs")
      (PyVal.vStr "crs") PyVal.vNone false).1 rfl,
   (C10_amended_assert_behavior P0 (PyVal.vStr "not-a-dataset")
      (PyVal.vStr "EPSG:4326") (PyVal.vAffine t0) (PyVal.vStr "crs")
      (PyVal.vStr "crs") PyVal.vNone false).2.1 rfl⟩

/-! ### Claim C8 (partial georeferencing for datasets) -/

/-- C8: for every dataset with one data variable lacking the expected
x/y spatial dimensions and one having both, `georeference` stamps the
`grid_mapping` attribute only on the variable having both dimensions —
the other is returned untouched, non-fatally — and `is_georeferenced`
on the resulting dataset returns `True`. -/
theorem C8_partial_georeference (P : ProjService) (ds : Dataset) (crs : CRS)
    (t : Affine) (n1 n2 : String) (v1 v2 gm : XVar)
    (hvars : ds.data_vars = [(n1, v1), (n2, v2)])
    (h1 : (v1.dims.contains (P.cf_xy_coord_names crs).1 &&
           v1.dims.contains (P.cf_xy_coord_names crs).2) = false)
    (h2 : (v2.dims.contains (P.cf_xy_coord_names crs).1 &&
           v2.dims.contains (P.cf_xy_coord_names crs).2) = true)
    (hgm : create_grid_mapping P crs t "crs" = Except.ok gm) :
    ∃ ds', georeference P (XObj.ds ds) crs t "crs" = Except.ok (XObj.ds ds') ∧
      ds'.data_vars = [(n1, v1),
        (n2, { v2 with
                 attrs := alistSet v2.attrs "grid_mapping" (AttrValue.str "crs") })] ∧
      is_georeferenced (XObj.ds ds') "crs" false = Except.ok true := by
  refine ⟨{ coords := alistSet ds.coords "crs" gm,
            data_vars := [(n1, v1),
              (n2, { v2 with
                       attrs := alistSet v2.attrs "grid_mapping" (AttrValue.str "crs") })],
            attrs := alistUpdate ds.attrs CF_NC_ATTRS }, ?_, rfl, ?_⟩
  · unfold georeference
    rw [hgm]
    simp only [hvars, List.map_cons, List.map_nil, _georef, h1, h2]
    simp
  · have hattrs := create_grid_mapping_ok_attrs P crs t "crs" gm hgm
    obtain ⟨hk1, hk2, hk3⟩ := build_gm_attrs_has_required P crs t
    rw [hattrs.symm] at hk1 hk2 hk3
    unfold is_georeferenced _is_georeferenced_body
    simp only [get_grid_mapping, alistGet_set_self]
    simp [_check_georef, hk1, hk2, hk3, alistGet_set_self_has]

/-- A data variable with no spatial dimensions. -/
def dvPlain : XVar :=
  { name := "meta", dims := ["band"], data := AttrValue.int 0, attrs := [] }

/-- A data variable carrying both expected spatial dimensions. -/
def dvSpatial : XVar :=
  { name := "blue", dims := ["latitude", "longitude"], data := AttrValue.int 0,
    attrs := [] }

/-- A dataset mixing a spatially-dimensionless variable and a spatial
variable. -/
def dsMix : Dataset :=
  { coords := [], data_vars := [("meta", dvPlain), ("blue", dvSpatial)], attrs := [] }

/-- C8 witness: the partial-georeferencing theorem applied to the
concrete mixed dataset under the concrete Projection Service. -/
theorem C8_partial_georeference_witness :
    ∃ ds', georeference P0 (XObj.ds dsMix) crs0 t0 "crs" = Except.ok (XObj.ds ds') ∧
      ds'.data_vars = [("meta", dvPlain),
        ("blue", { dvSpatial with
                     attrs := alistSet dvSpatial.attrs "grid_mapping"
                       (AttrValue.str "crs") })] ∧
      is_georeferenced (XObj.ds ds') "crs" false = Except.ok true :=
  C8_partial_georeference P0 dsMix crs0 t0 "meta" "blue" dvPlain dvSpatial gmRecord0
    rfl rfl rfl rfl
